import Mathlib

/-!
# Verification of the compress-decompress action's command planner

This file embeds, in Lean, the path handling, exclude-pattern formatting,
compression/decompression command construction, validation, retry and
glob-staging logic of the Python sources (`app/compress.py`,
`app/decompress.py`, `app/utils.py`, `app/main.py`) and proves or refutes
the frozen specification claims about them.

Conventions of the embedding:
* Python strings are Lean `String`s; Python string truthiness (`if s:`)
  becomes `s ≠ ""`.
* Filesystem queries (`os.path.isdir`, `os.path.lexists`, ...) are passed
  in as explicit `String → Bool` oracles, since the Python code consults
  the ambient filesystem.
* `os.path` functions (`posixpath` variants: `split`, `join`, `normpath`,
  `abspath`, `splitext`) are translated function-for-function below.
-/

/-! ## Kernel-computable models of Python string methods

Core `String.startsWith`, `endsWith`, `trim`, `split` use position loops
that do not reduce, so the Python string methods are modelled directly on
the character list. -/

/-- Model of Python `str.startswith`. -/
def py_startswith (s pre : String) : Bool := pre.data.isPrefixOf s.data

/-- Model of Python `str.endswith`. -/
def py_endswith (s suf : String) : Bool := suf.data.isSuffixOf s.data

/-- Model of Python `str.strip()` (no argument: strip whitespace at both
ends). -/
def py_strip (s : String) : String :=
  ⟨((s.data.dropWhile Char.isWhitespace).reverse.dropWhile
    Char.isWhitespace).reverse⟩

/-- Split a character list at every character satisfying `p`, keeping
empty chunks (the helper under both `str.split(sep)` and `str.split()`). -/
def split_chunks (p : Char → Bool) : List Char → List Char → List (List Char)
  | [], acc => [acc.reverse]
  | d :: ds, acc =>
    if p d then acc.reverse :: split_chunks p ds []
    else split_chunks p ds (d :: acc)

/-- Model of Python `s.split(c)` for a one-character separator. -/
def py_split_on_char (c : Char) (s : String) : List String :=
  (split_chunks (fun d => d = c) s.data []).map (fun cs => (⟨cs⟩ : String))

/-! ## Model of `posixpath` primitives -/

/-- Index just past the last `'/'` in `cs` (Python `p.rfind('/') + 1`),
or `0` when there is no slash. -/
def lastSlashEnd (cs : List Char) : Nat :=
  ((List.range cs.length).filter (fun i => cs.getD i ' ' = '/')).foldl
    (fun _ i => i + 1) 0

/-- Model of `posixpath.split`: split `p` into `(head, tail)` at the final
slash; trailing slashes are stripped from `head` unless it is all slashes. -/
def py_split (p : String) : String × String :=
  let cs := p.data
  let i := lastSlashEnd cs
  let head := cs.take i
  let tail := cs.drop i
  let head :=
    if head ≠ [] ∧ ¬ head.all (· = '/') then
      (head.reverse.dropWhile (· = '/')).reverse
    else head
  (⟨head⟩, ⟨tail⟩)

/-- Model of `os.path.dirname`. -/
def py_dirname (p : String) : String := (py_split p).1

/-- Model of `os.path.basename`. -/
def py_basename (p : String) : String := (py_split p).2

/-- Model of two-argument `posixpath.join`. -/
def py_join (a b : String) : String :=
  if py_startswith b "/" then b
  else if a = "" ∨ py_endswith a "/" then a ++ b
  else a ++ "/" ++ b

/-- Model of `posixpath.normpath`. -/
def py_normpath (p : String) : String :=
  if p = "" then "." else
  let initialSlashes : Nat :=
    if py_startswith p "/" then
      (if py_startswith p "//" ∧ ¬ py_startswith p "///" then 2 else 1)
    else 0
  let comps := py_split_on_char '/' p
  let newComps := comps.foldl (fun acc comp =>
    if comp = "" ∨ comp = "." then acc
    else if comp ≠ ".." ∨ (initialSlashes = 0 ∧ acc = []) ∨
        (acc ≠ [] ∧ acc.getLast? = some "..") then acc ++ [comp]
    else if acc ≠ [] then acc.dropLast
    else acc) []
  let joined := String.mk (List.replicate initialSlashes '/') ++
    String.intercalate "/" newComps
  if joined = "" then "." else joined

/-- Model of `os.path.abspath`, with the process working directory passed
explicitly: `normpath(join(cwd, path))`. -/
def py_abspath (cwd p : String) : String :=
  py_normpath (py_join cwd p)

/-- Model of `os.path.splitext` restricted to plain file names (no slash),
which is how the code applies it (`os.path.basename` first): the extension
starts at the last dot that has some non-dot character before it. -/
def py_splitext (name : String) : String × String :=
  let cs := name.data
  let dotIdxs := (List.range cs.length).filter (fun i =>
    cs.getD i ' ' = '.' ∧ (List.range i).any (fun j => cs.getD j ' ' ≠ '.'))
  match dotIdxs.getLast? with
  | none => (name, "")
  | some i => (⟨cs.take i⟩, ⟨cs.drop i⟩)

/-- Model of Python `str.split()` followed by the source's
`[p.strip() for p in ... if p.strip()]`: split on whitespace, trim, drop
empties. -/
def py_split_ws (s : String) : List String :=
  (((split_chunks Char.isWhitespace s.data []).map
    (fun cs => (⟨cs⟩ : String))).map py_strip).filter (fun t => t ≠ "")

/-! ## Exclude-pattern formatting (`Compressor._format_*`, `_process_*`) -/

/-- `Compressor._format_pattern_with_root` (compress.py lines 200-228):
format one zip exclusion pattern when `includeRoot` is true. `isdir` is
the `os.path.isdir` oracle. -/
def format_pattern_with_root (isdir : String → Bool)
    (sourcePath dirName pattern : String) : List String :=
  if py_startswith pattern (dirName ++ "/") ∨ pattern = dirName then
    [pattern]
  else if isdir (py_join sourcePath pattern) ∧ ¬ py_endswith pattern "/*" then
    (if py_endswith pattern "/" then
      [dirName ++ "/" ++ pattern ++ "*"]
    else
      [dirName ++ "/" ++ pattern ++ "/*", dirName ++ "/" ++ pattern ++ "/"])
  else
    [dirName ++ "/" ++ pattern]

/-- `Compressor._format_pattern_without_root` (compress.py lines 230-246):
format one zip exclusion pattern when `includeRoot` is false. -/
def format_pattern_without_root (isdir : String → Bool)
    (sourcePath pattern : String) : List String :=
  if isdir (py_join sourcePath pattern) ∧ ¬ py_endswith pattern "/*" then
    [pattern ++ "/*", pattern ++ "/"]
  else
    [pattern]

/-- `Compressor._format_zip_exclude_patterns` (compress.py lines 175-198). -/
def format_zip_exclude_patterns (isdir : String → Bool) (includeRoot : Bool)
    (patterns : List String) (sourcePath dirName : String) : List String :=
  patterns.foldl (fun acc pattern =>
    acc ++ (if includeRoot then
      format_pattern_with_root isdir sourcePath dirName pattern
    else
      format_pattern_without_root isdir sourcePath pattern)) []

/-- `Compressor._process_zip_exclude_patterns` (compress.py lines 151-173):
whole `-x "..."` fragment for the zip command. -/
def process_zip_exclude_patterns (isdir : String → Bool) (includeRoot : Bool)
    (exclude sourcePath : String) : String :=
  if exclude = "" then "" else
  let patterns := py_split_ws exclude
  if patterns = [] then "" else
  let dirName := py_basename sourcePath
  let processed := format_zip_exclude_patterns isdir includeRoot patterns sourcePath dirName
  String.intercalate " " (processed.map (fun p => "-x \"" ++ p ++ "\""))

/-- The per-pattern prefixing step inside
`Compressor._process_tar_exclude_patterns` (compress.py lines 311-315). -/
def tar_prefix_pattern (includeRoot : Bool) (dirName pattern : String) : String :=
  if includeRoot ∧ ¬ py_startswith pattern dirName then
    dirName ++ "/" ++ pattern
  else pattern

/-- The `processed_patterns` list built by
`Compressor._process_tar_exclude_patterns` (compress.py lines 309-315). -/
def tar_processed_patterns (includeRoot : Bool) (dirName : String)
    (patterns : List String) : List String :=
  patterns.foldl (fun acc pattern => acc ++ [tar_prefix_pattern includeRoot dirName pattern]) []

/-- `Compressor._process_tar_exclude_patterns` (compress.py lines 288-317):
whole `--exclude="..."` fragment for the tar command. -/
def process_tar_exclude_patterns (includeRoot : Bool)
    (exclude sourcePath : String) : String :=
  if exclude = "" then "" else
  let patterns := py_split_ws exclude
  if patterns = [] then "" else
  let dirName := py_basename sourcePath
  let processed := tar_processed_patterns includeRoot dirName patterns
  String.intercalate " " (processed.map (fun p => "--exclude=\"" ++ p ++ "\""))

/-- `Compressor._process_special_tar_exclude_patterns`
(compress.py lines 346-363): patterns are used verbatim. -/
def process_special_tar_exclude_patterns (exclude : String) : String :=
  if exclude = "" then "" else
  let patterns := py_split_ws exclude
  if patterns = [] then "" else
  String.intercalate " " (patterns.map (fun p => "--exclude=\"" ++ p ++ "\""))

/-! ## Compression command construction (`Compressor._get_*_command`) -/

/-- The source-path resolution shared by `_get_zip_command` (lines 138-139)
and `_get_tar_command` (lines 262-263): `os.path.abspath` followed by the
`/github/workspace` → `os.getcwd()` substitution. -/
def resolve_source_path (cwd source : String) : String :=
  let sourcePath := py_abspath cwd source
  if sourcePath = "/github/workspace" then cwd else sourcePath

/-- `Compressor._get_zip_command` (compress.py lines 122-149). -/
def get_zip_command (cwd : String) (isdir : String → Bool)
    (includeRoot : Bool) (exclude source fullDest : String) : String :=
  let sourcePath := resolve_source_path cwd source
  let excludeCmd := process_zip_exclude_patterns isdir includeRoot exclude sourcePath
  if includeRoot then
    let parentDir := py_dirname sourcePath
    let dirName := py_basename sourcePath
    "cd " ++ parentDir ++ " && zip -r " ++ fullDest ++ " " ++ dirName ++ " " ++ excludeCmd
  else
    "cd " ++ sourcePath ++ " && zip -r " ++ fullDest ++ " . " ++ excludeCmd

/-- The `tar_options` lookup in `_get_tar_command` (compress.py lines
265-270): `dict.get` with default `""`. -/
def tar_opt (format : String) : String :=
  if format = "tar" then "" else if format = "tgz" then "z"
  else if format = "tbz2" then "j" else ""

/-- The temp directory chosen by `Compressor._get_special_tar_command`
(compress.py lines 335-336). -/
def special_temp_dir (cwd source baseName format : String) : String :=
  py_join (py_dirname (py_abspath cwd source)) ("temp_" ++ baseName ++ "_" ++ format)

/-- `Compressor._get_special_tar_command` (compress.py lines 319-344): the
triple-quoted shell string, reproduced byte for byte (each command line is
indented by 12 spaces and the lines are joined by `&&`). -/
def get_special_tar_command (cwd : String)
    (exclude source fullDest baseName format opt : String) : String :=
  let sourcePath := py_abspath cwd source
  let tempDir := special_temp_dir cwd source baseName format
  let excludeCmd := process_special_tar_exclude_patterns exclude
  "\n            mkdir -p " ++ tempDir ++ " &&\n            cp -r " ++
    sourcePath ++ "/* " ++ tempDir ++ "/ &&\n            tar " ++ excludeCmd ++
    " -c" ++ opt ++ "f " ++ fullDest ++ " -C " ++ tempDir ++
    " . &&\n            rm -rf " ++ tempDir ++ "\n        "

/-- `Compressor._get_tar_command` (compress.py lines 248-286). -/
def get_tar_command (cwd : String) (includeRoot : Bool)
    (exclude source fullDest baseName format : String) : String :=
  let sourcePath := resolve_source_path cwd source
  let opt := tar_opt format
  if (format = "tgz" ∨ format = "tbz2") ∧ ¬ includeRoot then
    get_special_tar_command cwd exclude source fullDest baseName format opt
  else
    let excludeCmd := process_tar_exclude_patterns includeRoot exclude sourcePath
    if includeRoot then
      let parentDir := py_dirname sourcePath
      let dirName := py_basename sourcePath
      "tar " ++ excludeCmd ++ " -c" ++ opt ++ "f " ++ fullDest ++ " -C " ++
        parentDir ++ " " ++ dirName
    else
      "tar " ++ excludeCmd ++ " -c" ++ opt ++ "f " ++ fullDest ++ " -C " ++
        sourcePath ++ " ."

/-! ## Destination path (`BaseProcessor.__init__`,
`Compressor._determine_destination_path`) -/

/-- The destination-directory resolution in `BaseProcessor.__init__`
(utils.py line 232): `os.getenv("DEST", os.getenv("GITHUB_WORKSPACE",
os.getcwd()))`.  Unset environment variables are `none`. -/
def resolve_dest (destEnv ghWorkspaceEnv : Option String) (cwd : String) : String :=
  destEnv.getD (ghWorkspaceEnv.getD cwd)

/-- `Compressor._determine_destination_path` (compress.py lines 100-120).
Python truthiness of `self.dest` is `dest ≠ ""`. -/
def determine_destination_path (cwd dest source : String) (includeRoot : Bool)
    (baseName extension : String) : String :=
  if dest ≠ "" ∧ dest ≠ cwd then
    py_abspath cwd (py_join dest (baseName ++ extension))
  else
    let outputDir := if includeRoot then py_dirname source else source
    py_join outputDir (baseName ++ extension)

/-- `Compressor.get_compression_command` (compress.py lines 83-98). -/
def get_compression_command (cwd : String) (isdir : String → Bool)
    (dest destfilename exclude source format : String)
    (includeRoot : Bool) : String :=
  let baseName := if destfilename ≠ "" then destfilename else py_basename source
  let extension := "." ++ format
  let fullDest := determine_destination_path cwd dest source includeRoot baseName extension
  if format = "zip" then
    get_zip_command cwd isdir includeRoot exclude source fullDest
  else
    get_tar_command cwd includeRoot exclude source fullDest baseName format

/-! ## Decompression commands (`DECOMPRESSION_COMMANDS`,
`Decompressor.get_decompression_command`) -/

/-- Model of the `CommandConfig` dataclass (utils.py lines 84-94). -/
structure CommandConfig where
  command : String
  options : String → String
  fmt : String → String → String

/-- The `DECOMPRESSION_COMMANDS` dict (utils.py lines 97-118), keyed by the
format string; `none` models a missing key.  The `options` lambdas test
Python truthiness of `self.dest`, i.e. `d ≠ ""`. -/
def DECOMPRESSION_COMMANDS (format : String) : Option CommandConfig :=
  if format = "zip" then
    some ⟨"unzip", fun d => if d ≠ "" then "-d " ++ d else "-j -d .",
      fun src opt => opt ++ " " ++ src⟩
  else if format = "tar" then
    some ⟨"tar", fun d => if d ≠ "" then "-C " ++ d else "-C .",
      fun src opt => "-xf " ++ src ++ " " ++ opt⟩
  else if format = "tgz" then
    some ⟨"tar", fun d => if d ≠ "" then "-C " ++ d else "-C .",
      fun src opt => "-xzf " ++ src ++ " " ++ opt⟩
  else if format = "tbz2" then
    some ⟨"tar", fun d => if d ≠ "" then "-C " ++ d else "-C .",
      fun src opt => "-xjf " ++ src ++ " " ++ opt⟩
  else none

/-- `Decompressor.get_decompression_command` (decompress.py lines 41-57):
raises `ValueError` (`none` here) on an unsupported format, otherwise
builds `f"{cmd_config.command} {cmd_config.format(self.source, options)}"`.
Note the builder takes only the format, destination and source: no
root-inclusion flag and no exclude patterns enter decompression. -/
def get_decompression_command (format dest source : String) : Option String :=
  match DECOMPRESSION_COMMANDS format with
  | none => none
  | some cfg => some (cfg.command ++ " " ++ cfg.fmt source (cfg.options dest))

/-! ## Shell semantics for the special tgz/tbz2 staging chain (claim C1)

`_get_special_tar_command` returns a single `sh -c` string of four commands
joined by `&&`.  We mirror the command as a structured step list, render it
to the same string, and give the `&&` chain its standard semantics: steps
run left to right and the chain stops at the first failing step. -/

/-- One step of the staged tgz/tbz2 shell chain. -/
inductive ShellStep where
  | mkdirp (dir : String)
  | cpr (src dst : String)
  | tarc (args : String)
  | rmrf (dir : String)
deriving DecidableEq

/-- Rendering of one step back to the shell text used in
`_get_special_tar_command`. -/
def renderStep : ShellStep → String
  | .mkdirp d => "mkdir -p " ++ d
  | .cpr s d => "cp -r " ++ s ++ " " ++ d
  | .tarc a => "tar " ++ a
  | .rmrf d => "rm -rf " ++ d

/-- The four steps of the staged command, in source order
(compress.py lines 339-344). -/
def special_tar_steps (cwd : String)
    (exclude source fullDest baseName format opt : String) : List ShellStep :=
  let sourcePath := py_abspath cwd source
  let tempDir := special_temp_dir cwd source baseName format
  let excludeCmd := process_special_tar_exclude_patterns exclude
  [ .mkdirp tempDir,
    .cpr (sourcePath ++ "/*") (tempDir ++ "/"),
    .tarc (excludeCmd ++ " -c" ++ opt ++ "f " ++ fullDest ++ " -C " ++ tempDir ++ " ."),
    .rmrf tempDir ]

/-- Success/failure environment for the chain: `mkdir -p` and `rm -rf` on a
writable parent succeed; the copy and the tar invocation may fail. -/
structure StepEnv where
  cpSucceeds : Bool
  tarSucceeds : Bool
deriving DecidableEq

/-- Whether a step succeeds in environment `env`. -/
def stepSuccess (env : StepEnv) : ShellStep → Bool
  | .mkdirp _ => true
  | .cpr _ _ => env.cpSucceeds
  | .tarc _ => env.tarSucceeds
  | .rmrf _ => true

/-- Effect of a step on the one bit of filesystem state we track: whether
the staging temp directory `tempDir` exists. -/
def stepEffect (tempDir : String) : ShellStep → Bool → Bool
  | .mkdirp d, e => if d = tempDir then true else e
  | .rmrf d, e => if d = tempDir then false else e
  | .cpr _ _, e => e
  | .tarc _, e => e

/-- Standard semantics of an `&&` chain: run steps in order, stop at the
first failure.  Returns (chain succeeded, temp dir exists afterwards). -/
def runChain (env : StepEnv) (tempDir : String) :
    List ShellStep → Bool → Bool × Bool
  | [], e => (true, e)
  | step :: rest, e =>
    if stepSuccess env step then
      runChain env tempDir rest (stepEffect tempDir step e)
    else
      (false, stepEffect tempDir step e)

/-- `Compressor._cleanup_temp_directory` (compress.py lines 516-527), run
in the `finally` block of `Compressor.compress`: it removes
`self.temp_dir` when set.  `self.temp_dir` is initialised to `None`
(line 34) and assigned only in `_compress_glob_pattern` (line 485), so for
a non-glob compression it is `none` and the cleanup is a no-op. -/
def cleanup_temp_directory (selfTempDir : Option String)
    (tempDirExists : Bool) (tempDir : String) : Bool :=
  match selfTempDir with
  | none => tempDirExists
  | some d => if d = tempDir then false else tempDirExists

/-- The value of `self.temp_dir` during a non-glob (regular path)
compression, such as every tgz/tbz2 run on a directory source. -/
def temp_dir_field_for_regular_compress : Option String := none

/-! ## The modular entry point `app/main.py` (claim C3)

`ActionRunner.__init__` performs Python attribute lookups on `FileUtils`,
and `ActionRunner.execute_command` calls `compress(...)` with a fixed
number of positional arguments.  We model attribute lookup over the list
of methods `FileUtils` actually defines, and Python call arity checking. -/

/-- The methods defined by `class FileUtils` (utils.py lines 355-542), in
source order. -/
def fileUtilsMethods : List String :=
  ["get_size", "get_directory_size", "adjust_path", "is_glob_pattern",
   "find_files_by_pattern", "copy_files_to_temp_directory"]

/-- Python runtime errors relevant to the `main.py` dispatch. -/
inductive PyError where
  | attributeError (cls attr : String)
  | typeError (func : String) (expected given : Nat)
deriving DecidableEq

/-- Python attribute lookup on `FileUtils`: an `AttributeError` is raised
when the attribute is not defined on the class. -/
def fileUtilsGetattr (attr : String) : Except PyError Unit :=
  if attr ∈ fileUtilsMethods then .ok () else .error (.attributeError "FileUtils" attr)

/-- Number of parameters of `def compress(source, format, include_root)`
(compress.py lines 529-545). -/
def compressParamCount : Nat := 3

/-- Number of positional arguments in the call
`compress(self.source, self.format, self.include_root,
self.preserve_glob_structure, self.strip_prefix)`
(main.py line 106). -/
def mainCompressCallArgCount : Nat := 5

/-- Python positional-call arity check: calling a function whose signature
has `expected` parameters with `given` arguments raises `TypeError` when
the counts differ. -/
def pyCall (func : String) (expected given : Nat) : Except PyError Unit :=
  if given = expected then .ok () else .error (.typeError func expected given)

/-- `ActionRunner.__init__` (main.py lines 15-37) as far as exceptions are
concerned: the environment reads cannot fail, then lines 31-32 call
`FileUtils.str_to_bool` twice; the first failing lookup raises. -/
def actionRunnerInit : Except PyError Unit := do
  let _ ← fileUtilsGetattr "str_to_bool"
  let _ ← fileUtilsGetattr "str_to_bool"
  .ok ()

/-- The `compress` branch of `ActionRunner.execute_command`
(main.py lines 105-106), were construction to succeed: the dispatch call
itself, with its arity check. -/
def executeCompressDispatch : Except PyError Unit :=
  pyCall "compress" compressParamCount mainCompressCallArgCount

/-- The full modular compress path: construct the runner, then dispatch.
An archiver invocation is only reachable from `.ok`. -/
def mainCompressPath : Except PyError Unit := do
  let _ ← actionRunnerInit
  executeCompressDispatch

/-! ## Path validation and the compress flow (claim C8) -/

/-- The filesystem facts consulted by `Compressor.validate` and
`BaseProcessor.validate_path`: `os.path.lexists`, `os.path.islink`,
`os.path.realpath`, `os.path.exists`, and `FileUtils.find_files_by_pattern`
for glob sources. -/
structure Fs where
  lexists : String → Bool
  islink : String → Bool
  realpath : String → String
  pexists : String → Bool
  globMatches : String → List String

/-- Outcome of a validation step: either the process exits (with a code
and the printed error message) or validation returns a boolean. -/
inductive ValidateOutcome where
  | exitWith (code : Nat) (msg : String)
  | ok (b : Bool)
deriving DecidableEq

/-- `BaseProcessor.validate_path` (utils.py lines 236-275). -/
def validate_path (fs : Fs) (failOnError : Bool)
    (path errorPrefix : String) : ValidateOutcome :=
  let path := py_strip path
  if ¬ fs.lexists path then
    let msg := errorPrefix ++ " '" ++ path ++ "' does not exist"
    if failOnError then .exitWith 1 msg else .ok false
  else if fs.islink path ∧ ¬ fs.pexists (fs.realpath path) then
    let msg := errorPrefix ++ " '" ++ path ++ "' is a broken symbolic link (target: '" ++
      fs.realpath path ++ "' does not exist)"
    if failOnError then .exitWith 1 msg else .ok false
  else .ok true

/-- `FileUtils.is_glob_pattern` (utils.py lines 445-459). -/
def is_glob_pattern (path : String) : Bool :=
  path.data.any (fun c => c = '*' ∨ c = '?' ∨ c = '[' ∨ c = ']')

/-- `Compressor.validate` (compress.py lines 36-81): trim, remap the
GitHub-runner prefix to `/github/workspace`, branch on glob patterns,
otherwise fall through to `validate_path`.  Also returns the possibly
rewritten `self.source`. -/
def compressor_validate (fs : Fs) (failOnError : Bool)
    (source : String) : ValidateOutcome × String :=
  let source := py_strip source
  let source := if py_startswith source "/home/runner/work/" then "/github/workspace" else source
  if is_glob_pattern source then
    if (fs.globMatches source).isEmpty then
      let msg := "No files matched the pattern: " ++ source
      (if failOnError then .exitWith 1 msg else .ok false, source)
    else (.ok true, source)
  else (validate_path fs failOnError source "Source path", source)

/-- Outcome of `Compressor.compress` (compress.py lines 365-409), tracked
up to the point relevant to claim C8: either the process exited during
validation, or it finished, carrying the shell commands that were handed
to `CommandExecutor.run` along the way. -/
inductive CompressOutcome where
  | exited (code : Nat) (msg : String)
  | finished (success : Bool) (commandsRun : List String)
deriving DecidableEq

/-- The validation-and-dispatch skeleton of `Compressor.compress`
(compress.py lines 380-403): a failed validation returns
`ProcessResult(False, "Validation failed")` before any command is built;
a successful validation reaches `CommandExecutor.run` with the built
command.  `buildCommand` abstracts `get_compression_command` applied to
the validated source (every non-glob run passes exactly one command to the
executor); `cmdSucceeds` is that command's exit status. -/
def compress_flow (fs : Fs) (failOnError : Bool) (source : String)
    (buildCommand : String → String) (cmdSucceeds : Bool) : CompressOutcome :=
  match compressor_validate fs failOnError source with
  | (.exitWith c m, _) => .exited c m
  | (.ok false, _) => .finished false []
  | (.ok true, src) => .finished cmdSucceeds [buildCommand src]

/-! ## `retry_on_failure` and `CommandExecutor.run` (claim C9) -/

/-- Result of one attempt of the decorated function body, or of the whole
wrapped call: a Python return value (here a `ProcessResult`-like pair of
success flag and message), a raised exception, or Python's implicit `None`
(returned when the `for` loop of the decorator is exhausted). -/
inductive RunOutcome where
  | result (success : Bool) (message : String)
  | raised (msg : String)
  | pyNone
deriving DecidableEq

/-- One execution of the body of `CommandExecutor.run` (utils.py lines
318-349): a failing command raises `subprocess.CalledProcessError`, which
is re-raised as `RuntimeError` when `FAIL_ON_ERROR` is truthy and is
otherwise swallowed into a failed `ProcessResult`.  `errRepr` stands for
`str(e)` and `stderr` for `e.stderr`. -/
def command_executor_body (failOnError cmdFails : Bool)
    (errRepr stderr : String) : RunOutcome :=
  if cmdFails then
    if failOnError then
      .raised ("Command failed: " ++ errRepr ++ "\nError output:\n" ++ stderr)
    else .result false ("Command failed: " ++ errRepr)
  else .result true "Command executed successfully"

/-- The loop of `retry_on_failure` (utils.py lines 148-174), recorded with
its observable schedule: `attemptBody i` is the body's outcome on the
i-th iteration (0-based `attempt`).  Returns the final outcome, the list
of `time.sleep` durations performed, and the number of attempts made. -/
def retry_loop (attemptBody : Nat → RunOutcome) (delay : Nat) :
    (attempt remaining : Nat) → RunOutcome × List Nat × Nat
  | _, 0 => (.pyNone, [], 0)
  | attempt, remaining + 1 =>
    match attemptBody attempt with
    | .raised m =>
      if remaining = 0 then (.raised m, [], 1)
      else
        let (out, sleeps, n) := retry_loop attemptBody delay (attempt + 1) remaining
        (out, delay * (attempt + 1) :: sleeps, n + 1)
    | r => (r, [], 1)

/-- `CommandExecutor.run` with its `@retry_on_failure()` decorator
(defaults `max_retries = 3`, `delay = 1`): retry the body up to 3
attempts.  `cmdFails i` tells whether the i-th spawn of the shell command
fails. -/
def command_executor_run (failOnError : Bool) (cmdFails : Nat → Bool)
    (errRepr stderr : String) : RunOutcome × List Nat × Nat :=
  retry_loop (fun i => command_executor_body failOnError (cmdFails i) errRepr stderr) 1 0 3

/-! ## Glob staging (`FileUtils.copy_files_to_temp_directory`,
`Compressor._compress_glob_pattern`) -/

/-- The k-th destination name tried by the flattening branch of
`FileUtils.copy_files_to_temp_directory` (utils.py lines 532-542) for a
file named `fileName`: first the name itself, then
`f"{base_name}_{counter}{ext}"` for `counter = 1, 2, ...`. -/
def candidate_name (fileName : String) (k : Nat) : String :=
  if k = 0 then fileName
  else (py_splitext fileName).1 ++ "_" ++ Nat.repr k ++ (py_splitext fileName).2

/-- The `while os.path.exists(dest_path)` search of the same lines: try
counters `k, k+1, ...` until a candidate is not among the names already
present.  The loop always terminates because decimal numerals are pairwise
distinct and only finitely many names exist; `fuel` makes the recursion
structural, and `assign_name_spec` below shows `existing.length + 2` fuel
always suffices. -/
def find_free_counter (existing : List String) (fileName : String) :
    (k fuel : Nat) → Nat
  | k, 0 => k
  | k, fuel + 1 =>
    if candidate_name fileName k ∈ existing then
      find_free_counter existing fileName (k + 1) fuel
    else k

/-- The name under which one file is copied into the temp directory. -/
def assign_name (existing : List String) (fileName : String) : String :=
  candidate_name fileName (find_free_counter existing fileName 0 (existing.length + 2))

/-- The flattening loop of `FileUtils.copy_files_to_temp_directory` with
`preserve_structure=False`, as invoked by `Compressor._compress_glob_pattern`
(compress.py lines 491-496): each matched file is copied to the temp
directory under `os.path.basename` of its path, deduplicated by the
counter search; the copy adds the name to the directory.  Returns the
top-level names in copy order, given the names initially present. -/
def copy_files_flatten (existing : List String) : List String → List String
  | [] => []
  | f :: fs =>
    let n := assign_name existing (py_basename f)
    n :: copy_files_flatten (n :: existing) fs

/-! ## Injectivity of decimal numerals

The counter search above distinguishes candidates by `Nat.repr`.  To
reason about it we prove that `Nat.repr` is injective, via a decimal
parser that is a left inverse of `Nat.toDigitsCore`. -/

/-- Numeric value of a decimal digit character. -/
def digitVal (c : Char) : Nat := c.toNat - '0'.toNat

/-- Accumulating decimal parser over a character list. -/
def parseAcc : Nat → List Char → Nat
  | a, [] => a
  | a, c :: cs => parseAcc (a * 10 + digitVal c) cs

theorem parseAcc_append (a : Nat) (xs ys : List Char) :
    parseAcc a (xs ++ ys) = parseAcc (parseAcc a xs) ys := by
  induction xs generalizing a with
  | nil => rfl
  | cons c cs ih => exact ih (a * 10 + digitVal c)

theorem toDigitsCore_eq_append (b fuel n : Nat) (ds : List Char) :
    Nat.toDigitsCore b fuel n ds = Nat.toDigitsCore b fuel n [] ++ ds := by
  induction fuel generalizing n ds with
  | zero => simp [Nat.toDigitsCore]
  | succ f ih =>
    simp only [Nat.toDigitsCore]
    by_cases h : n / b = 0
    · simp [h]
    · simp only [if_neg h]
      rw [ih (n / b) (Nat.digitChar (n % b) :: ds),
        ih (n / b) [Nat.digitChar (n % b)]]
      simp

theorem digitVal_digitChar {m : Nat} (h : m < 10) :
    digitVal (Nat.digitChar m) = m := by
  interval_cases m <;> decide

theorem parseAcc_nil (a : Nat) : parseAcc a [] = a := rfl

theorem parseAcc_cons (a : Nat) (c : Char) (cs : List Char) :
    parseAcc a (c :: cs) = parseAcc (a * 10 + digitVal c) cs := rfl

theorem toDigitsCore_succ (b f n : Nat) (ds : List Char) :
    Nat.toDigitsCore b (f + 1) n ds =
      if n / b = 0 then Nat.digitChar (n % b) :: ds
      else Nat.toDigitsCore b f (n / b) (Nat.digitChar (n % b) :: ds) := rfl

theorem parseAcc_toDigitsCore (fuel : Nat) :
    ∀ n, n < 10 ^ fuel → parseAcc 0 (Nat.toDigitsCore 10 fuel n []) = n := by
  induction fuel with
  | zero =>
    intro n h
    simp only [pow_zero, Nat.lt_one_iff] at h
    subst h
    rfl
  | succ f ih =>
    intro n h
    rw [toDigitsCore_succ]
    by_cases h0 : n / 10 = 0
    · rw [if_pos h0, parseAcc_cons, parseAcc_nil,
        digitVal_digitChar (Nat.mod_lt n (by norm_num))]
      omega
    · have hdiv : n / 10 < 10 ^ f := by
        rw [Nat.div_lt_iff_lt_mul (by norm_num)]
        calc n < 10 ^ (f + 1) := h
        _ = 10 ^ f * 10 := by ring
      rw [if_neg h0, toDigitsCore_eq_append, parseAcc_append, ih (n / 10) hdiv,
        parseAcc_cons, parseAcc_nil,
        digitVal_digitChar (Nat.mod_lt n (by norm_num))]
      omega

theorem natRepr_injective : Function.Injective Nat.repr := by
  intro a b hab
  have hdata : Nat.toDigits 10 a = Nat.toDigits 10 b := by
    have := congrArg String.data hab
    simpa [Nat.repr, List.asString] using this
  have ha : parseAcc 0 (Nat.toDigits 10 a) = a :=
    parseAcc_toDigitsCore (a + 1) a
      (lt_trans (Nat.lt_succ_self a) (Nat.lt_pow_self (by norm_num) (a + 1)))
  have hb : parseAcc 0 (Nat.toDigits 10 b) = b :=
    parseAcc_toDigitsCore (b + 1) b
      (lt_trans (Nat.lt_succ_self b) (Nat.lt_pow_self (by norm_num) (b + 1)))
  rw [← ha, ← hb, hdata]

theorem candidate_name_injOn (fn : String) {j k : Nat} (hj : j ≠ 0) (hk : k ≠ 0)
    (h : candidate_name fn j = candidate_name fn k) : j = k := by
  unfold candidate_name at h
  rw [if_neg hj, if_neg hk] at h
  have hd := congrArg String.data h
  simp only [String.data_append] at hd
  have h1 := List.append_cancel_right hd
  have h2 := List.append_cancel_left h1
  exact natRepr_injective (String.ext h2)

theorem exists_free_candidate (S : List String) (fn : String) :
    ∃ k, k ≠ 0 ∧ candidate_name fn k ∉ S := by
  by_contra hcon
  push_neg at hcon
  have hinj : Function.Injective (fun k : Nat => candidate_name fn (k + 1)) := by
    intro a b hab
    have := candidate_name_injOn fn (Nat.succ_ne_zero a) (Nat.succ_ne_zero b) hab
    omega
  have hinf : (Set.range (fun k : Nat => candidate_name fn (k + 1))).Infinite :=
    Set.infinite_range_of_injective hinj
  refine hinf (Set.Finite.subset S.finite_toSet ?_)
  rintro x ⟨k, rfl⟩
  exact hcon (k + 1) (Nat.succ_ne_zero k)

theorem find_free_counter_spec (S : List String) (fn : String) :
    ∀ fuel k, (∃ j, k ≤ j ∧ j < k + fuel ∧ candidate_name fn j ∉ S) →
      candidate_name fn (find_free_counter S fn k fuel) ∉ S ∧
      k ≤ find_free_counter S fn k fuel ∧
      (∀ j, k ≤ j → j < find_free_counter S fn k fuel → candidate_name fn j ∈ S) := by
  intro fuel
  induction fuel with
  | zero =>
    intro k ⟨j, hkj, hlt, _⟩
    omega
  | succ f ih =>
    intro k hex
    unfold find_free_counter
    by_cases hmem : candidate_name fn k ∈ S
    · rw [if_pos hmem]
      obtain ⟨j, hkj, hlt, hfree⟩ := hex
      have hjk : j ≠ k := fun he => hfree (he ▸ hmem)
      obtain ⟨hf, hle, hleast⟩ := ih (k + 1) ⟨j, by omega, by omega, hfree⟩
      refine ⟨hf, by omega, fun j' hj' hlt' => ?_⟩
      rcases Nat.eq_or_lt_of_le hj' with he | hgt
      · exact he ▸ hmem
      · exact hleast j' hgt hlt'
    · rw [if_neg hmem]
      exact ⟨hmem, le_refl k, fun j hj hlt => by omega⟩

theorem assign_name_spec (S : List String) (fn : String) :
    assign_name S fn ∉ S ∧
    (∃ k, assign_name S fn = candidate_name fn k ∧
      ∀ j, j < k → candidate_name fn j ∈ S) := by
  have hex : ∃ j, 0 ≤ j ∧ j < 0 + (S.length + 2) ∧ candidate_name fn j ∉ S := by
    obtain ⟨j, hj0, hjfree⟩ := exists_free_candidate S fn
    by_cases hall : ∀ i, i < S.length + 2 → candidate_name fn i ∈ S
    · exfalso
      have hTsub : ∀ i, i ∈ List.range (S.length + 1) →
          candidate_name fn (i + 1) ∈ S := by
        intro i hi
        rw [List.mem_range] at hi
        exact hall (i + 1) (by omega)
      have hnodup : ((List.range (S.length + 1)).map
          (fun i => candidate_name fn (i + 1))).Nodup := by
        refine List.Nodup.map_on ?_ (List.nodup_range _)
        intro a _ b _ hab
        have := candidate_name_injOn fn (Nat.succ_ne_zero a) (Nat.succ_ne_zero b) hab
        omega
      have hsub : ((List.range (S.length + 1)).map
          (fun i => candidate_name fn (i + 1))) ⊆ S := by
        intro x hx
        obtain ⟨i, hi, rfl⟩ := List.mem_map.mp hx
        exact hTsub i hi
      have hcard := List.toFinset_card_of_nodup hnodup
      have hsubf : ((List.range (S.length + 1)).map
          (fun i => candidate_name fn (i + 1))).toFinset ⊆ S.toFinset := by
        intro x hx
        rw [List.mem_toFinset] at hx ⊢
        exact hsub hx
      have hc := Finset.card_le_card hsubf
      have hle := S.toFinset_card_le
      rw [hcard] at hc
      simp at hc
      omega
    · push_neg at hall
      obtain ⟨i, hi, hifree⟩ := hall
      exact ⟨i, by omega, by omega, hifree⟩
  obtain ⟨hf, _, hleast⟩ := find_free_counter_spec S fn (S.length + 2) 0 hex
  exact ⟨hf, find_free_counter S fn 0 (S.length + 2), rfl,
    fun j hj => hleast j (Nat.zero_le j) hj⟩

theorem copy_files_flatten_length (files : List String) :
    ∀ existing, (copy_files_flatten existing files).length = files.length := by
  induction files with
  | nil => intro existing; rfl
  | cons f fs ih =>
    intro existing
    simp only [copy_files_flatten, List.length_cons, ih]

theorem copy_files_flatten_fresh (files : List String) :
    ∀ existing, (copy_files_flatten existing files).Nodup ∧
      ∀ n ∈ copy_files_flatten existing files, n ∉ existing := by
  induction files with
  | nil =>
    intro existing
    exact ⟨List.nodup_nil, by intro n hn; cases hn⟩
  | cons f fs ih =>
    intro existing
    obtain ⟨hnd, hdisj⟩ := ih (assign_name existing (py_basename f) :: existing)
    have hfresh := (assign_name_spec existing (py_basename f)).1
    constructor
    · refine List.nodup_cons.mpr ⟨?_, hnd⟩
      intro hmem
      exact hdisj _ hmem (List.mem_cons_self _ _)
    · intro n hn
      rcases List.mem_cons.mp hn with he | ht
      · exact he ▸ hfresh
      · intro hmem
        exact hdisj n ht (List.mem_cons_of_mem _ hmem)

/-! ## Spec-side definitions for the refinement claims

Each of the following is written from the specification's words, to be
compared with the code-side definitions above. -/

/-- Modelled from the spec: the compression decision table of §4.4
(format × includeRoot → command shape), with `<excludeFragment>` passed in
as produced by the exclude formatter, `<parent(source)>` and
`<basename(source)>` taken of the resolved source path, and tgz/tbz2 with
root being "same as tar with `-z`/`-j`". -/
def spec_compression_command (format : String) (includeRoot : Bool)
    (sourcePath dest excludeFragment : String) : String :=
  if format = "zip" then
    (if includeRoot then
      "cd " ++ py_dirname sourcePath ++ " && zip -r " ++ dest ++ " " ++
        py_basename sourcePath ++ " " ++ excludeFragment
    else
      "cd " ++ sourcePath ++ " && zip -r " ++ dest ++ " . " ++ excludeFragment)
  else
    let z := if format = "tgz" then "z" else if format = "tbz2" then "j" else ""
    if includeRoot then
      "tar " ++ excludeFragment ++ " -c" ++ z ++ "f " ++ dest ++ " -C " ++
        py_dirname sourcePath ++ " " ++ py_basename sourcePath
    else
      "tar " ++ excludeFragment ++ " -c" ++ z ++ "f " ++ dest ++ " -C " ++
        sourcePath ++ " ."

/-- Modelled from the spec: the destination path rule of §4.4 — an
explicit destination directory differing from the current directory gives
`<destDir>/<baseNameOrOverride>.<ext>` normalised to absolute, otherwise
the output goes beside the source (root included) or inside it (root not
included). -/
def spec_destination_path (cwd dest source : String) (includeRoot : Bool)
    (fileName : String) : String :=
  if dest ≠ "" ∧ dest ≠ cwd then
    py_abspath cwd (py_join dest fileName)
  else if includeRoot then
    py_join (py_dirname source) fileName
  else
    py_join source fileName

/-- Modelled from the spec: the decompression planner of §4.6 — format
alone picks the tool and flags: zip → `unzip -d <destDir> <source>`, or
`unzip -j -d . <source>` with no destination; tar/tgz/tbz2 →
`tar -x{|z|j}f <source> -C <destDir-or-.>`. -/
def spec_decompression_command (format dest source : String) : Option String :=
  if format = "zip" then
    some (if dest ≠ "" then "unzip -d " ++ dest ++ " " ++ source
      else "unzip -j -d . " ++ source)
  else if format = "tar" then
    some ("tar -xf " ++ source ++ " -C " ++ (if dest ≠ "" then dest else "."))
  else if format = "tgz" then
    some ("tar -xzf " ++ source ++ " -C " ++ (if dest ≠ "" then dest else "."))
  else if format = "tbz2" then
    some ("tar -xjf " ++ source ++ " -C " ++ (if dest ≠ "" then dest else "."))
  else none

/-! ## Claim theorems -/

/-- C2: For every resolved source directory and destination path, the
compression commands built by `_get_zip_command` and `_get_tar_command`
match the spec's decision table: zip with/without root, tar with/without
root, and tgz/tbz2 with root being the tar command with `-z`/`-j`, with
`<excludeFragment>` the fragment produced by the corresponding exclude
formatter.  (tgz/tbz2 without root are the staged special case, claim C1.) -/
theorem claim_C2_command_table (cwd exclude source fullDest baseName : String)
    (isdir : String → Bool) :
    get_zip_command cwd isdir true exclude source fullDest =
      spec_compression_command "zip" true (resolve_source_path cwd source) fullDest
        (process_zip_exclude_patterns isdir true exclude (resolve_source_path cwd source)) ∧
    get_zip_command cwd isdir false exclude source fullDest =
      spec_compression_command "zip" false (resolve_source_path cwd source) fullDest
        (process_zip_exclude_patterns isdir false exclude (resolve_source_path cwd source)) ∧
    get_tar_command cwd true exclude source fullDest baseName "tar" =
      spec_compression_command "tar" true (resolve_source_path cwd source) fullDest
        (process_tar_exclude_patterns true exclude (resolve_source_path cwd source)) ∧
    get_tar_command cwd false exclude source fullDest baseName "tar" =
      spec_compression_command "tar" false (resolve_source_path cwd source) fullDest
        (process_tar_exclude_patterns false exclude (resolve_source_path cwd source)) ∧
    get_tar_command cwd true exclude source fullDest baseName "tgz" =
      spec_compression_command "tgz" true (resolve_source_path cwd source) fullDest
        (process_tar_exclude_patterns true exclude (resolve_source_path cwd source)) ∧
    get_tar_command cwd true exclude source fullDest baseName "tbz2" =
      spec_compression_command "tbz2" true (resolve_source_path cwd source) fullDest
        (process_tar_exclude_patterns true exclude (resolve_source_path cwd source)) := by
  refine ⟨?_, ?_, ?_, ?_, ?_, ?_⟩ <;>
    simp [get_zip_command, get_tar_command, spec_compression_command, tar_opt]

/-- C3: The modular entry point never reaches an archiver invocation for
the compress command: `ActionRunner.__init__` looks up
`FileUtils.str_to_bool`, which `FileUtils` does not define, raising
`AttributeError`; and even past that, `execute_command` calls `compress`
with five arguments while it accepts exactly three, raising `TypeError`. -/
theorem claim_C3_main_compress_dead :
    ("str_to_bool" ∈ fileUtilsMethods) = False ∧
    actionRunnerInit = Except.error (PyError.attributeError "FileUtils" "str_to_bool") ∧
    mainCompressCallArgCount ≠ compressParamCount ∧
    executeCompressDispatch = Except.error (PyError.typeError "compress" 3 5) ∧
    mainCompressPath = Except.error (PyError.attributeError "FileUtils" "str_to_bool") := by
  exact ⟨by decide, rfl, by decide, rfl, rfl⟩

/-- C6: For every compression request, the destination path follows the
spec's rule: a configured destination directory differing from the current
directory gives the absolute normalisation of
`<destDir>/<baseNameOrOverride>.<ext>`; otherwise the output is placed
beside the source (root included) or inside the source (root excluded).
The configured destination is `DEST`, falling back to `GITHUB_WORKSPACE`
and then to the current directory (`BaseProcessor.__init__`). -/
theorem claim_C6_destination_path (destEnv ghEnv : Option String)
    (cwd source baseName extension : String) (includeRoot : Bool) :
    determine_destination_path cwd (resolve_dest destEnv ghEnv cwd) source
        includeRoot baseName extension =
      spec_destination_path cwd (resolve_dest destEnv ghEnv cwd) source
        includeRoot (baseName ++ extension) := by
  unfold determine_destination_path spec_destination_path
  split_ifs with h1 <;> cases includeRoot <;> simp

/-- C7: For every decompression request, the format alone determines the
extraction command, matching the spec's table: zip gives
`unzip -d <destDir> <source>` (or `unzip -j -d . <source>` without a
destination) and tar/tgz/tbz2 give `tar` with `-xf`, `-xzf` or `-xjf` and `-C <destDir-or-.>`; the builder consults neither a root-inclusion flag nor
exclude patterns. -/
theorem claim_C7_decompression_table (format dest source : String) :
    get_decompression_command format dest source =
      spec_decompression_command format dest source := by
  unfold get_decompression_command spec_decompression_command DECOMPRESSION_COMMANDS
  split_ifs <;>
    first
      | rfl
      | (refine congrArg some (String.ext ?_)
         simp only [String.data_append]
         split_ifs <;> simp_all [String.data_append])

theorem intercalate_four (sep a b c d : String) :
    String.intercalate sep [a, b, c, d] =
      ((((((a ++ sep) ++ b) ++ sep) ++ c) ++ sep) ++ d) := rfl

/-- C1 counterexample: a tgz-without-root compression whose tar invocation
fails.  The staged command chains `rm -rf` behind `&&`, so the chain stops
at the failed tar step and the staging temp directory still exists when
the operation completes; the `finally`-block cleanup does not remove it
either, because `self.temp_dir` is unset outside glob compressions.  This
contradicts the claim's "no longer exists on disk ... regardless of
whether the tar invocation succeeded or failed". -/
theorem claim_C1_counterexample :
    runChain ⟨true, false⟩ (special_temp_dir "/w" "/w/src" "src" "tgz")
        (special_tar_steps "/w" "" "/w/src" "/w/src.tgz" "src" "tgz" "z") false =
      (false, true) ∧
    cleanup_temp_directory temp_dir_field_for_regular_compress true
      (special_temp_dir "/w" "/w/src" "src" "tgz") = true := by
  exact ⟨by decide, rfl⟩

/-- C1 (amended): for tgz/tbz2 with includeRoot=false the builder emits the
four-step `&&` chain — make the temp dir beside the source, recursively
copy the source's contents into it, run tar with the `-z` or `-j` option
against the temp dir with target `.`, then `rm -rf` the temp dir — and
under `&&` semantics the temp directory is removed exactly when the copy
and tar steps succeed (it remains on disk when either fails); the
`finally`-block cleanup leaves it untouched for non-glob runs. -/
theorem claim_C1_amended (env : StepEnv)
    (cwd exclude source fullDest baseName format opt : String) :
    special_tar_steps cwd exclude source fullDest baseName format opt =
      [ShellStep.mkdirp (special_temp_dir cwd source baseName format),
       ShellStep.cpr (py_abspath cwd source ++ "/*")
         (special_temp_dir cwd source baseName format ++ "/"),
       ShellStep.tarc (process_special_tar_exclude_patterns exclude ++
         " -c" ++ opt ++ "f " ++ fullDest ++ " -C " ++
         special_temp_dir cwd source baseName format ++ " ."),
       ShellStep.rmrf (special_temp_dir cwd source baseName format)] ∧
    get_special_tar_command cwd exclude source fullDest baseName format opt =
      "\n            " ++ String.intercalate " &&\n            "
        ((special_tar_steps cwd exclude source fullDest baseName format opt).map
          renderStep) ++ "\n        " ∧
    (runChain env (special_temp_dir cwd source baseName format)
        (special_tar_steps cwd exclude source fullDest baseName format opt) false).2 =
      !(env.cpSucceeds && env.tarSucceeds) ∧
    cleanup_temp_directory temp_dir_field_for_regular_compress
        (runChain env (special_temp_dir cwd source baseName format)
          (special_tar_steps cwd exclude source fullDest baseName format opt) false).2
        (special_temp_dir cwd source baseName format) =
      !(env.cpSucceeds && env.tarSucceeds) := by
  obtain ⟨c, t⟩ := env
  refine ⟨rfl, ?_, ?_, ?_⟩
  · apply String.ext
    simp [get_special_tar_command, special_tar_steps, renderStep,
      intercalate_four, String.data_append]
  · cases c <;> cases t <;>
      simp [runChain, special_tar_steps, stepSuccess, stepEffect]
  · cases c <;> cases t <;>
      simp [runChain, special_tar_steps, stepSuccess, stepEffect,
        cleanup_temp_directory, temp_dir_field_for_regular_compress]

/-- The output shape "pattern prefixed with the source directory name
followed by a slash": `out` is `dirName ++ "/" ++ pattern` possibly
followed by more text (the directory-expansion suffixes). -/
def prefixed_by (dirName pattern out : String) : Prop :=
  ∃ t, out = dirName ++ "/" ++ pattern ++ t

theorem foldl_append_singleton {α β : Type} (f : α → β) :
    ∀ (ps : List α) (init : List β),
      ps.foldl (fun acc p => acc ++ [f p]) init = init ++ ps.map f := by
  intro ps
  induction ps with
  | nil => intro init; simp
  | cons p ps ih => intro init; simp [ih]

theorem tar_processed_patterns_eq_map (includeRoot : Bool) (dirName : String)
    (patterns : List String) :
    tar_processed_patterns includeRoot dirName patterns =
      patterns.map (tar_prefix_pattern includeRoot dirName) := by
  unfold tar_processed_patterns
  rw [foldl_append_singleton]
  simp

/-- C4 counterexample: with source directory name `src` and exclude
pattern `srcfoo`, the tar-side formatter leaves the pattern unprefixed —
its guard tests `startswith(dir_name)` without the slash — although the
pattern neither starts with `src/` nor equals `src`, so the claim's rule
("prefixed unless it already starts with 'sourceDirName/' or equals the
directory name") fails for the tar formatting. -/
theorem claim_C4_counterexample :
    py_startswith "srcfoo" ("src" ++ "/") = false ∧
    "srcfoo" ≠ "src" ∧
    tar_prefix_pattern true "src" "srcfoo" = "srcfoo" ∧
    tar_processed_patterns true "src" ["srcfoo"] = ["srcfoo"] ∧
    process_tar_exclude_patterns true "srcfoo" "/tmp/src" = "--exclude=\"srcfoo\"" ∧
    "srcfoo" ≠ "src" ++ "/" ++ "srcfoo" := by decide

/-- C4 (amended): with includeRoot=true, the zip formatter prefixes every
produced pattern with `dirName ++ "/"` whenever the input pattern does not
already start with that prefix and differs from the directory name; the
tar formatter instead prefixes exactly when the pattern does not start
with the bare directory name (no slash required), leaving any pattern that
merely begins with the directory name — such as `srcfoo` under `src` —
unchanged. -/
theorem claim_C4_amended (isdir : String → Bool)
    (sourcePath dirName pattern : String)
    (hp : py_startswith pattern (dirName ++ "/") = false)
    (hq : pattern ≠ dirName) :
    (∀ out ∈ format_pattern_with_root isdir sourcePath dirName pattern,
      prefixed_by dirName pattern out) ∧
    (py_startswith pattern dirName = false →
      tar_prefix_pattern true dirName pattern = dirName ++ "/" ++ pattern) ∧
    (∀ q, py_startswith q dirName = true →
      tar_prefix_pattern true dirName q = q) := by
  refine ⟨?_, ?_, ?_⟩
  · intro out hout
    unfold format_pattern_with_root at hout
    rw [if_neg (by simp [hp, hq])] at hout
    by_cases hd : isdir (py_join sourcePath pattern) ∧ ¬ py_endswith pattern "/*"
    · rw [if_pos hd] at hout
      by_cases hs : py_endswith pattern "/"
      · rw [if_pos hs] at hout
        simp only [List.mem_singleton] at hout
        exact ⟨"*", by rw [hout]⟩
      · rw [if_neg hs] at hout
        simp only [List.mem_cons, List.mem_singleton, List.not_mem_nil,
          or_false] at hout
        rcases hout with h | h
        · exact ⟨"/*", by rw [h]⟩
        · exact ⟨"/", by rw [h]⟩
    · rw [if_neg hd] at hout
      simp only [List.mem_singleton] at hout
      exact ⟨"", by simp [hout]⟩
  · intro hps
    simp [tar_prefix_pattern, hps]
  · intro q hq2
    simp [tar_prefix_pattern, hq2]

/-- C4 witness: concrete instances of the amended rule. -/
theorem claim_C4_witness :
    prefixed_by "src" "foo" "src/foo" ∧
    tar_prefix_pattern true "src" "foo" = "src" ++ "/" ++ "foo" ∧
    tar_prefix_pattern true "src" "srcfoo" = "srcfoo" := by
  have h := claim_C4_amended (fun _ => false) "/s" "src" "foo" (by decide) (by decide)
  have h2 := claim_C4_amended (fun _ => false) "/s" "src" "srcfoo" (by decide) (by decide)
  exact ⟨h.1 "src/foo" (by decide), h.2.1 (by decide), h2.2.2 "srcfoo" (by decide)⟩

/-- C5 counterexample: pattern `build` names an existing directory of
source `/src` (the `isdir` oracle holds on `/src/build`) and does not end
in `/*`, yet the tar-side formatter emits the single sub-pattern `build`
(or `src/build` with root) rather than the two sub-patterns
`build/*` and `build/` the claim requires for both formatter styles. -/
theorem claim_C5_counterexample :
    (fun s => s == "/src/build") (py_join "/src" "build") = true ∧
    py_endswith "build" "/*" = false ∧
    tar_processed_patterns false "src" ["build"] = ["build"] ∧
    tar_processed_patterns true "src" ["build"] = ["src/build"] ∧
    process_tar_exclude_patterns false "build" "/src" = "--exclude=\"build\"" ∧
    tar_processed_patterns false "src" ["build"] ≠ ["build" ++ "/*", "build" ++ "/"] := by
  decide

/-- C5 (amended): the two-sub-pattern expansion of a directory-naming
pattern (`<prefix>/*` for the contents and `<prefix>/` for the entry) is
applied only by the zip-style formatter — unconditionally without root,
and with root provided the pattern does not end in `/`, does not already
carry the `dirName/` prefix and differs from the directory name; the
tar-style formatter never expands: it emits exactly one sub-pattern per
input pattern for both includeRoot values. -/
theorem claim_C5_amended (isdir : String → Bool)
    (sourcePath dirName pattern : String)
    (hdir : isdir (py_join sourcePath pattern) = true)
    (hstar : py_endswith pattern "/*" = false) :
    format_pattern_without_root isdir sourcePath pattern =
      [pattern ++ "/*", pattern ++ "/"] ∧
    (py_startswith pattern (dirName ++ "/") = false → pattern ≠ dirName →
      py_endswith pattern "/" = false →
      format_pattern_with_root isdir sourcePath dirName pattern =
        [dirName ++ "/" ++ pattern ++ "/*", dirName ++ "/" ++ pattern ++ "/"]) ∧
    (∀ (ps : List String) (ir : Bool),
      (tar_processed_patterns ir dirName ps).length = ps.length) := by
  refine ⟨?_, ?_, ?_⟩
  · simp [format_pattern_without_root, hdir, hstar]
  · intro hp hq hs
    simp [format_pattern_with_root, hp, hq, hdir, hstar, hs]
  · intro ps ir
    rw [tar_processed_patterns_eq_map]
    simp

/-- C5 witness: concrete instances of the amended rule. -/
theorem claim_C5_witness :
    format_pattern_without_root (fun s => s == "/src/build") "/src" "build" =
      ["build" ++ "/*", "build" ++ "/"] ∧
    format_pattern_with_root (fun s => s == "/src/build") "/src" "src" "build" =
      ["src" ++ "/" ++ "build" ++ "/*", "src" ++ "/" ++ "build" ++ "/"] ∧
    (tar_processed_patterns false "src" ["build"]).length = 1 := by
  have h := claim_C5_amended (fun s => s == "/src/build") "/src" "src" "build"
    (by decide) (by decide)
  exact ⟨h.1, h.2.1 (by decide) (by decide) (by decide), h.2.2 ["build"] false⟩

/-- A filesystem in which only `/github/workspace` exists and nothing is a
symlink. -/
def fsWorkspaceOnly : Fs where
  lexists := fun s => s == "/github/workspace"
  islink := fun _ => false
  realpath := fun s => s
  pexists := fun s => s == "/github/workspace"
  globMatches := fun _ => []

/-- A filesystem in which no path exists at all. -/
def fsEmpty : Fs where
  lexists := fun _ => false
  islink := fun _ => false
  realpath := fun s => s
  pexists := fun _ => false
  globMatches := fun _ => []

set_option maxRecDepth 10000 in
/-- C8 counterexample: the nonexistent source path
`/home/runner/work/repo/repo` is remapped by `Compressor.validate` to
`/github/workspace` before the existence check, so on a filesystem where
the workspace exists validation succeeds and an archiver command runs —
with fail-on-error enabled the process does not exit with code 1, and with
it disabled the run is not a command-free failure, both contrary to the
claim's "for every nonexistent source path". -/
theorem claim_C8_counterexample :
    fsWorkspaceOnly.lexists "/home/runner/work/repo/repo" = false ∧
    compress_flow fsWorkspaceOnly true "/home/runner/work/repo/repo"
        (fun s => "zip -r out.zip " ++ s) true =
      CompressOutcome.finished true ["zip -r out.zip /github/workspace"] ∧
    compress_flow fsWorkspaceOnly false "/home/runner/work/repo/repo"
        (fun s => "zip -r out.zip " ++ s) true ≠
      CompressOutcome.finished false [] := by
  refine ⟨by decide, by decide, by decide⟩

/-- C8 (amended): for every whitespace-trimmed source path that does not
start with the remapped runner prefix `/home/runner/work/` and is not a
glob pattern: if the path does not exist (or is a symlink with a missing
target), then with fail-on-error enabled the process exits with code 1
printing an error that embeds the path, and with fail-on-error disabled
validation returns a failure result, the run finishes without terminating
the process, and no archiver command is executed. -/
theorem claim_C8_amended (fs : Fs) (source : String)
    (hs : py_strip source = source)
    (hremap : py_startswith source "/home/runner/work/" = false)
    (hglob : is_glob_pattern source = false)
    (buildCommand : String → String) (cmdSucceeds : Bool) :
    (fs.lexists source = false →
      compress_flow fs true source buildCommand cmdSucceeds =
        CompressOutcome.exited 1
          ("Source path" ++ " '" ++ source ++ "' does not exist") ∧
      compress_flow fs false source buildCommand cmdSucceeds =
        CompressOutcome.finished false []) ∧
    (fs.lexists source = true → fs.islink source = true →
      fs.pexists (fs.realpath source) = false →
      compress_flow fs true source buildCommand cmdSucceeds =
        CompressOutcome.exited 1
          ("Source path" ++ " '" ++ source ++ "' is a broken symbolic link (target: '" ++
            fs.realpath source ++ "' does not exist)") ∧
      compress_flow fs false source buildCommand cmdSucceeds =
        CompressOutcome.finished false []) := by
  constructor
  · intro hmiss
    constructor <;>
      simp [compress_flow, compressor_validate, validate_path, hs, hremap,
        hglob, hmiss]
  · intro hlex hlink hbroken
    constructor <;>
      simp [compress_flow, compressor_validate, validate_path, hs, hremap,
        hglob, hlex, hlink, hbroken]

set_option maxRecDepth 10000 in
/-- C8 witness: a concrete missing path on an empty filesystem. -/
theorem claim_C8_witness :
    compress_flow fsEmpty true "/nonexistent" (fun s => s) true =
      CompressOutcome.exited 1
        ("Source path" ++ " '" ++ "/nonexistent" ++ "' does not exist") ∧
    compress_flow fsEmpty false "/nonexistent" (fun s => s) true =
      CompressOutcome.finished false [] := by
  have h := claim_C8_amended fsEmpty "/nonexistent" (by decide) (by decide)
    (by decide) (fun s => s) true
  exact h.1 (by decide)

/-- C9 counterexample: with `FAIL_ON_ERROR` disabled, a failing command
makes the body of `CommandExecutor.run` return a failed `ProcessResult`
instead of raising, so the decorator sees a normal return: exactly one
attempt is made, no backoff sleep occurs, and the failure is surfaced
immediately — contradicting the claim's "this retry-before-fatal behavior
applies ... regardless of the fail-on-error setting". -/
theorem claim_C9_counterexample :
    command_executor_run false (fun _ => true) "err" "stderr text" =
      (RunOutcome.result false ("Command failed: " ++ "err"), [], 1) ∧
    (1 : Nat) ≠ 3 := by
  exact ⟨by decide, by decide⟩

/-- C9 (amended): the retry wrapper makes up to 3 attempts with linearly
increasing sleeps `delay * attemptNumber` (delay 1: sleeps 1 then 2) only
when the command failure raises, which happens exactly when fail-on-error
is enabled: an always-failing command is then retried 3 times before the
error surfaces, and a transient failure is retried and can succeed; with
fail-on-error disabled a failing command returns a failure result after a
single attempt with no retry. -/
theorem claim_C9_amended (cmdFails : Nat → Bool) (errRepr stderr : String) :
    ((∀ i, i < 3 → cmdFails i = true) →
      command_executor_run true cmdFails errRepr stderr =
        (RunOutcome.raised ("Command failed: " ++ errRepr ++
          "\nError output:\n" ++ stderr), [1, 2], 3)) ∧
    (cmdFails 0 = true → cmdFails 1 = false →
      command_executor_run true cmdFails errRepr stderr =
        (RunOutcome.result true "Command executed successfully", [1], 2)) ∧
    (cmdFails 0 = true →
      command_executor_run false cmdFails errRepr stderr =
        (RunOutcome.result false ("Command failed: " ++ errRepr), [], 1)) := by
  refine ⟨?_, ?_, ?_⟩
  · intro h
    simp [command_executor_run, retry_loop, command_executor_body,
      h 0 (by norm_num), h 1 (by norm_num), h 2 (by norm_num)]
  · intro h0 h1
    simp [command_executor_run, retry_loop, command_executor_body, h0, h1]
  · intro h0
    simp [command_executor_run, retry_loop, command_executor_body, h0]

/-- C9 witness: concrete always-failing commands under both settings. -/
theorem claim_C9_witness :
    command_executor_run true (fun _ => true) "boom" "detail" =
      (RunOutcome.raised ("Command failed: " ++ "boom" ++
        "\nError output:\n" ++ "detail"), [1, 2], 3) ∧
    command_executor_run false (fun _ => true) "boom" "detail" =
      (RunOutcome.result false ("Command failed: " ++ "boom"), [], 1) := by
  have h := claim_C9_amended (fun _ => true) "boom" "detail"
  exact ⟨h.1 (fun i _ => rfl), h.2.2 rfl⟩

set_option maxRecDepth 10000 in
/-- C10 counterexample: among the matched files `x/a_1.doc`, `y/a.doc`,
`z/a.doc` the last two share the basename `a.doc`, and the claim
prescribes that the first later copy be renamed `a_1.doc` — but that name
is already taken by the first matched file, so the code assigns `a_2.doc`:
later copies are not, in general, renamed `<basename>_1<ext>`,
`<basename>_2<ext>`, ... in sequence. -/
theorem claim_C10_counterexample :
    copy_files_flatten [] ["x/a_1.doc", "y/a.doc", "z/a.doc"] =
      ["a_1.doc", "a.doc", "a_2.doc"] ∧
    py_basename "y/a.doc" = py_basename "z/a.doc" ∧
    candidate_name "a.doc" 1 = "a_1.doc" ∧
    "a_2.doc" ≠ "a_1.doc" := by
  refine ⟨by decide, by decide, by decide, by decide⟩

/-- C10 (amended): glob-matched files are copied flattened — each under
`os.path.basename` of its path — into a single temp directory; a file
whose name is already present is renamed `<stem>_k<ext>` with the smallest
counter `k ≥ 1` whose name is free (counters taken by other matched files
are skipped), so copies never overwrite: the assigned top-level names are
pairwise distinct and disjoint from the names already present. -/
theorem claim_C10_amended (existing files : List String) (fn : String) :
    (assign_name existing fn ∉ existing ∧
      ∃ k, assign_name existing fn = candidate_name fn k ∧
        ∀ j, j < k → candidate_name fn j ∈ existing) ∧
    (copy_files_flatten existing files).length = files.length ∧
    (copy_files_flatten existing files).Nodup ∧
    ∀ n ∈ copy_files_flatten existing files, n ∉ existing := by
  exact ⟨assign_name_spec existing fn,
    copy_files_flatten_length files existing,
    (copy_files_flatten_fresh files existing).1,
    (copy_files_flatten_fresh files existing).2⟩

set_option maxRecDepth 10000 in
/-- C10 witness: concrete consequences of the amended statement. -/
theorem claim_C10_witness :
    assign_name ["a.doc", "a_1.doc"] "a.doc" ∉ ["a.doc", "a_1.doc"] ∧
    (copy_files_flatten [] ["x/a_1.doc", "y/a.doc", "z/a.doc"]).Nodup := by
  exact ⟨(claim_C10_amended ["a.doc", "a_1.doc"] [] "a.doc").1.1,
    (claim_C10_amended [] ["x/a_1.doc", "y/a.doc", "z/a.doc"] "x").2.2.1⟩
